import Mathlib

/-!
Verification development for the TTS server in src/coqui_server.py
(repository Akshay9845/3d-ai-companion).

The file shallowly embeds the request/response flow of the Flask server:
JSON request bodies, the two synthesis providers (model-backed and silent
fallback), the temp-directory file store, and the three HTTP endpoints.
Python floats are modelled by rationals, Python exceptions by Except /
Option, and the filesystem by an association list from filename to WAV
data.  Every definition is transcribed from src/coqui_server.py, with the
external collaborators (the Coqui TTS library, the wave module, the OS)
represented by explicit fields of the server environment.

One remark on the source is load-bearing: at line 117 of
src/coqui_server.py the statement `audio_path = self.generate_mock_audio(text)`
is indented 16 spaces, the same column as the `else:` on line 115, so the
else-suite contains no statement and the module is a Python
IndentationError.  The intended placement (the statement as the body of the
else branch, matching the comment "# Fallback to mock audio" on line 116)
is unambiguous, and the handler below follows that intent; the syntactic
defect itself is modelled separately (see the line-indent definitions and
the theorem for claim C1).
-/

namespace Coqui

/-- JSON values as delivered by Flask request.get_json to the handler.
Arrays and nested objects are omitted: no claim exercises them, and for the
operations used by the handler (strip, float coercion) they behave like the
other non-string, non-numeric constructors. -/
inductive JValue where
  | jstr (s : String)
  | jnum (q : ℚ)
  | jbool (b : Bool)
  | jnull
deriving DecidableEq, Repr

/-- A request body: none when no JSON body could be obtained, otherwise the
parsed top-level object as an association list (Python dict keys are
unique; lookup takes the first binding). -/
abbrev ReqBody := Option (List (String × JValue))

/-- WAV file contents as written through the wave module: channel count,
sample width in bytes, frame rate, and the 16-bit sample values. -/
structure WavFile where
  nchannels : Nat
  sampwidth : Nat
  framerate : Nat
  frames : List Int
deriving DecidableEq, Repr

/-- The temp directory (self.temp_dir): filenames mapped to WAV contents.
Writing conses; lookup takes the newest binding, so a rewrite shadows
(overwrites) the older file. -/
abbrev FileSys := List (String × WavFile)

/-- Write a file, overwriting any previous file of the same name. -/
def FileSys.write (fs : FileSys) (name : String) (w : WavFile) : FileSys :=
  (name, w) :: fs

/-- Read a file back (os.path.exists succeeds iff this is some). -/
def FileSys.read (fs : FileSys) (name : String) : Option WavFile :=
  List.lookup name fs

/-- Models the Python builtin hash on strings: an arbitrary but fixed
deterministic function.  The server relies only on hash(text) being
deterministic within the process; no claim depends on particular values. -/
def pyHash (s : String) : Int :=
  s.data.foldl (fun h c => h * 31 + (c.toNat : Int)) 0

/-- Output path derived by generate_real_audio (line 146):
f"coqui_tts_\x7bhash(text)\x7d.wav" joined under the temp dir. -/
def real_output_name (text : String) : String :=
  "coqui_tts_" ++ toString (pyHash text) ++ ".wav"

/-- Output path derived by generate_mock_audio (line 170):
f"mock_tts_\x7bhash(text)\x7d.wav" joined under the temp dir. -/
def mock_output_name (text : String) : String :=
  "mock_tts_" ++ toString (pyHash text) ++ ".wav"

/-- sample_rate = 22050 (line 173). -/
def sample_rate : Nat := 22050

/-- duration = 1.0, one second of silence (line 174). -/
def mock_duration : ℚ := 1

/-- num_samples = int(sample_rate * duration) (line 175); Python int()
truncates toward zero, which on this nonnegative value is the floor. -/
def num_samples : Nat := (⌊(sample_rate : ℚ) * mock_duration⌋).toNat

/-- The WAV file written by generate_mock_audio (lines 177-184): mono,
16-bit (2-byte) samples, 22050 Hz, num_samples zero samples. -/
def silent_wav : WavFile :=
  { nchannels := 1, sampwidth := 2, framerate := sample_rate,
    frames := List.replicate num_samples 0 }

/-- The server state after __init__ plus the behavior of its external
collaborators, which the source reaches only through calls:
tts_model is self.tts_model (none when no model loaded);
tts_raises says whether self.tts_model.tts_to_file raises on this process;
tts_audio gives the WAV the model writes for given text and speed when it
does not raise; mock_write_error, when some, is the message of the
exception raised while writing the silent WAV (e.g. unwritable temp dir),
and none means the write succeeds. -/
structure Server where
  tts_model : Option Unit
  tts_raises : Bool
  tts_audio : String → ℚ → WavFile
  mock_write_error : Option String

/-- Instrumentation event: one entry per invocation of a synthesis
provider, recording which provider ran and its arguments. -/
inductive PCall where
  | real (text : String) (speed : ℚ)
  | mock (text : String)
deriving DecidableEq, Repr

/-- generate_mock_audio (lines 163-191): derives the mock output name,
writes one second of silence there, and returns the path; if the write
raises, the exception is re-raised (the bare raise on line 191). -/
def generate_mock_audio (env : Server) (text : String) (fs : FileSys) :
    Except String (String × FileSys) × List PCall :=
  (match env.mock_write_error with
   | some msg => Except.error msg
   | none =>
       Except.ok (mock_output_name text,
                  fs.write (mock_output_name text) silent_wav),
   [PCall.mock text])

/-- generate_real_audio (lines 142-161): derives the coqui output name and
has the model write there; on any exception it falls back to
generate_mock_audio for the same text (line 161), whose own exception, if
any, propagates. -/
def generate_real_audio (env : Server) (text : String) (speed : ℚ)
    (fs : FileSys) : Except String (String × FileSys) × List PCall :=
  if env.tts_raises then
    let r := generate_mock_audio env text fs
    (r.1, PCall.real text speed :: r.2)
  else
    (Except.ok (real_output_name text,
                fs.write (real_output_name text) (env.tts_audio text speed)),
     [PCall.real text speed])

/-- Models the Python str.strip used on line 103: remove leading and
trailing whitespace (implemented over the character list; the ASCII
whitespace set suffices for every claim). -/
def pyStrip (s : String) : String :=
  String.mk
    (((s.data.dropWhile Char.isWhitespace).reverse.dropWhile
        Char.isWhitespace).reverse)

/-- Numeric value of a list of decimal digit characters. -/
def digitsVal (cs : List Char) : Nat :=
  cs.foldl (fun a c => a * 10 + (c.toNat - 48)) 0

/-- Split a character list at the dots, keeping empty segments. -/
def splitOnDot (cs : List Char) : List (List Char) :=
  cs.foldr
    (fun c acc =>
      if c = '.' then [] :: acc
      else
        match acc with
        | [] => [[c]]
        | h :: t => (c :: h) :: t)
    [[]]

/-- Models the Python float() builtin on a decimal numeral string:
optional sign, digits, optional fractional part, surrounding whitespace
allowed; none when the string is not such a numeral (ValueError).  Exotic
accepted forms (exponents, inf, nan, underscores) are not modelled; no
claim exercises them. -/
def pyStrToFloat (s : String) : Option ℚ :=
  let t := (pyStrip s).data
  let p : ℚ × List Char :=
    match t with
    | '-' :: rest => (-1, rest)
    | '+' :: rest => (1, rest)
    | _ => (1, t)
  match splitOnDot p.2 with
  | [a] =>
      if a.length > 0 && a.all Char.isDigit then
        some (p.1 * (digitsVal a : ℚ))
      else none
  | [a, b] =>
      if (a.length + b.length > 0) && a.all Char.isDigit
          && b.all Char.isDigit then
        some (p.1 * ((digitsVal a : ℚ)
              + (digitsVal b : ℚ) / ((10 : ℚ) ^ b.length)))
      else none
  | _ => none

/-- Models float(v) (line 108) on a JSON value: numbers pass through,
booleans coerce to 0 or 1, decimal numeral strings parse, everything else
raises (TypeError / ValueError), modelled as none. -/
def pyFloat (v : JValue) : Option ℚ :=
  match v with
  | JValue.jnum q => some q
  | JValue.jbool b => some (if b then 1 else 0)
  | JValue.jstr s => pyStrToFloat s
  | JValue.jnull => none

/-- Message of the AttributeError raised by data["text"].strip() when the
value is not a string (line 103).  The Python type name in the real message
is modelled per constructor and quoting is elided; no claim constrains this
text beyond it being the raw exception message. -/
def strip_attr_error (v : JValue) : String :=
  match v with
  | JValue.jnum _ => "float object has no attribute strip"
  | JValue.jbool _ => "bool object has no attribute strip"
  | JValue.jnull => "NoneType object has no attribute strip"
  | JValue.jstr _ => ""

/-- Message of the ValueError / TypeError raised by float() when the value
does not coerce (line 108); quoting elided as above. -/
def float_coerce_error (v : JValue) : String :=
  match v with
  | JValue.jstr s => "could not convert string to float: " ++ s
  | JValue.jnull => "float() argument must be a string or a real number, not NoneType"
  | _ => "float() error"

/-- An HTTP response from the handler: a streamed WAV body (send_file,
status 200) or a JSON error object with the given status. -/
inductive Response where
  | wav (w : WavFile)
  | err (status : Nat) (msg : String)
deriving DecidableEq, Repr

/-- HTTP status of a response: send_file is 200, errors carry theirs. -/
def Response.statusCode : Response → Nat
  | Response.wav _ => 200
  | Response.err s _ => s

/-- Everything the handler leaves behind: the HTTP response, the temp
directory afterwards, and the trace of provider invocations. -/
structure HandlerOut where
  resp : Response
  fs : FileSys
  calls : List PCall
deriving DecidableEq

/-- synthesize_speech, the POST /api/tts handler (lines 94-131), with the
mock-audio assignment read as the body of the else branch (see the header
note; the literal source dedents it, an IndentationError modelled by
claim C1).  The whole body is one try block: any exception e becomes the
response jsonify error str(e) with status 500. -/
def synthesize_speech (env : Server) (body : ReqBody) (fs : FileSys) :
    HandlerOut :=
  match body with
  | none => ⟨Response.err 400 "Missing text parameter", fs, []⟩
  | some data =>
    match List.lookup "text" data with
    | none => ⟨Response.err 400 "Missing text parameter", fs, []⟩
    | some tv =>
      match tv with
      | JValue.jstr raw =>
        let text := pyStrip raw
        if text = "" then ⟨Response.err 400 "Empty text", fs, []⟩
        else
          match pyFloat ((List.lookup "speed" data).getD (JValue.jnum 1)) with
          | none =>
              ⟨Response.err 500
                 (float_coerce_error ((List.lookup "speed" data).getD (JValue.jnum 1))),
               fs, []⟩
          | some speed =>
            let out :=
              if env.tts_model.isSome then
                generate_real_audio env text speed fs
              else
                generate_mock_audio env text fs
            match out with
            | (Except.error msg, trace) => ⟨Response.err 500 msg, fs, trace⟩
            | (Except.ok (path, fs1), trace) =>
              match fs1.read path with
              | none => ⟨Response.err 500 "Failed to generate speech", fs1, trace⟩
              | some w => ⟨Response.wav w, fs1, trace⟩
      | v => ⟨Response.err 500 (strip_attr_error v), fs, []⟩

/-- Response of GET /health as a record (lines 84-92). -/
structure HealthResp where
  status : String
  model_loaded : Bool
  cuda_available : Bool
  version : String
deriving DecidableEq, Repr

/-- health_check, the GET /health handler (lines 84-92). -/
def health_check (env : Server) : HealthResp :=
  { status := "healthy",
    model_loaded := env.tts_model.isSome,
    cuda_available := false,
    version := if env.tts_model.isSome then "1.0.0-real" else "1.0.0-mock" }

/-- Indentation, in leading spaces, of the `if self.tts_model:` line
(source line 112). -/
def if_model_line_indent : Nat := 16

/-- Indentation of the real-provider call inside the if branch
(source line 114). -/
def real_call_line_indent : Nat := 20

/-- Indentation of the `else:` line (source line 115). -/
def else_line_indent : Nat := 16

/-- Indentation of the mock-provider assignment that was meant to be the
else-branch body (source line 117). -/
def mock_call_line_indent : Nat := 16

/-- Python grammar rule for a compound statement: the statements of the
suite following `else:` must be indented strictly deeper than the `else:`
line itself, otherwise the module raises IndentationError at parse time. -/
def pythonSuiteIndentOK (headerIndent bodyIndent : Nat) : Bool :=
  headerIndent < bodyIndent

/-! Concrete server environments used by the witness theorems. -/

/-- Arbitrary concrete model output used by witness environments. -/
def audioW : String → ℚ → WavFile :=
  fun _ _ => { nchannels := 1, sampwidth := 2, framerate := 22050,
               frames := [5, -5] }

/-- Environment with no model loaded and a writable temp dir. -/
def env_mock_ok : Server :=
  { tts_model := none, tts_raises := false, tts_audio := audioW,
    mock_write_error := none }

/-- Environment with a loaded model that works. -/
def env_real_ok : Server :=
  { tts_model := some (), tts_raises := false, tts_audio := audioW,
    mock_write_error := none }

/-- Environment with a loaded model that raises during synthesis. -/
def env_real_fail : Server :=
  { tts_model := some (), tts_raises := true, tts_audio := audioW,
    mock_write_error := none }

/-- Environment with no model and an unwritable temp dir. -/
def env_mock_err : Server :=
  { tts_model := none, tts_raises := false, tts_audio := audioW,
    mock_write_error := some "disk full" }

/-- Environment with a failing model and an unwritable temp dir. -/
def env_both_err : Server :=
  { tts_model := some (), tts_raises := true, tts_audio := audioW,
    mock_write_error := some "disk full" }

/-- Helper: num_samples evaluates to 22050. -/
theorem num_samples_eq : num_samples = 22050 := by
  simp [num_samples, sample_rate, mock_duration]

end Coqui

namespace Coqui

/-- Claim C2: a POST /api/tts request whose JSON body is absent, lacks a
"text" key, or whose text is empty after stripping whitespace gets an HTTP
400 response with a descriptive message, no synthesis provider is invoked,
and the temp directory is unchanged. -/
theorem C2_invalid_text_rejected (env : Server) (fs : FileSys)
    (data : List (String × JValue)) (raw : String) :
    (synthesize_speech env none fs
        = ⟨Response.err 400 "Missing text parameter", fs, []⟩)
    ∧ (List.lookup "text" data = none →
        synthesize_speech env (some data) fs
          = ⟨Response.err 400 "Missing text parameter", fs, []⟩)
    ∧ (List.lookup "text" data = some (JValue.jstr raw) → pyStrip raw = "" →
        synthesize_speech env (some data) fs
          = ⟨Response.err 400 "Empty text", fs, []⟩) := by
  refine ⟨rfl, ?_, ?_⟩
  · intro h
    simp [synthesize_speech, h]
  · intro h1 h2
    simp [synthesize_speech, h1, h2]

/-- Witness for C2 at a concrete whitespace-only request. -/
theorem C2_invalid_text_rejected_witness :
    List.lookup "text" [("text", JValue.jstr "   ")]
        = some (JValue.jstr "   ")
    ∧ pyStrip "   " = ""
    ∧ synthesize_speech env_mock_ok (some [("text", JValue.jstr "   ")]) []
        = ⟨Response.err 400 "Empty text", [], []⟩ :=
  ⟨by decide, by decide,
   (C2_invalid_text_rejected env_mock_ok [] [("text", JValue.jstr "   ")]
      "   ").2.2 (by decide) (by decide)⟩

/-- Claim C10: for the same text, the filename derived by the model-backed
provider (prefix coqui_tts_) always differs from the filename derived by
the silence provider (prefix mock_tts_), so the two variants never target
the same file of the temp directory. -/
theorem C10_provider_filenames_disjoint (text : String) :
    real_output_name text ≠ mock_output_name text := by
  intro h
  have h2 := congrArg String.length h
  simp [real_output_name, mock_output_name, String.length_append] at h2
  exact absurd h2 (by decide)

/-- Claim C6: GET /health always reports status healthy, model_loaded true
exactly when the model handle is non-null, cuda_available false, and the
version tag 1.0.0-real when a model is loaded and 1.0.0-mock otherwise. -/
theorem C6_health_report (env : Server) :
    (health_check env).status = "healthy"
    ∧ ((health_check env).model_loaded = true ↔ env.tts_model.isSome = true)
    ∧ (health_check env).cuda_available = false
    ∧ (health_check env).version
        = (if env.tts_model.isSome then "1.0.0-real" else "1.0.0-mock") := by
  refine ⟨rfl, Iff.rfl, rfl, rfl⟩

/-- Claim C4: the silence provider writes a mono, 16-bit, 22050 Hz WAV of
exactly 22050 zero samples at the mock-derived path for any text, taking no
speed parameter at all; in particular a POST /api/tts request with text
Hello and no model loaded yields HTTP 200 whose body is exactly that
silent WAV. -/
theorem C4_silence_provider_output (env : Server) (text : String)
    (fs : FileSys) (hw : env.mock_write_error = none) :
    (generate_mock_audio env text fs
        = (Except.ok (mock_output_name text,
             (mock_output_name text, silent_wav) :: fs), [PCall.mock text]))
    ∧ silent_wav.nchannels = 1
    ∧ silent_wav.sampwidth = 2
    ∧ silent_wav.framerate = 22050
    ∧ silent_wav.frames.length = 22050
    ∧ (∀ x ∈ silent_wav.frames, x = 0)
    ∧ Response.statusCode (Response.wav silent_wav) = 200
    ∧ (env.tts_model = none →
        synthesize_speech env (some [("text", JValue.jstr "Hello")]) fs
          = ⟨Response.wav silent_wav,
             (mock_output_name "Hello", silent_wav) :: fs,
             [PCall.mock "Hello"]⟩) := by
  refine ⟨?_, rfl, rfl, rfl, ?_, ?_, rfl, ?_⟩
  · simp [generate_mock_audio, FileSys.write, hw]
  · simp only [silent_wav, List.length_replicate, num_samples_eq]
  · intro x hx
    exact List.eq_of_mem_replicate hx
  · intro hm
    obtain ⟨tm, tr, ta, me⟩ := env
    cases hm
    cases hw
    rfl

/-- Witness for C4 with no model loaded and a writable temp dir. -/
theorem C4_silence_provider_output_witness :
    env_mock_ok.mock_write_error = none
    ∧ env_mock_ok.tts_model = none
    ∧ synthesize_speech env_mock_ok (some [("text", JValue.jstr "Hello")]) []
        = ⟨Response.wav silent_wav,
           [(mock_output_name "Hello", silent_wav)], [PCall.mock "Hello"]⟩ :=
  ⟨rfl, rfl,
   (C4_silence_provider_output env_mock_ok "Hello" [] rfl).2.2.2.2.2.2.2 rfl⟩

end Coqui

namespace Coqui

/-- Claim C1 concerns the provider dispatch of the POST /api/tts handler
(source lines 112-117).  The claim fails against the literal source: the
if-branch suite is properly indented, but the statement intended as the
else-branch body, the mock-provider call on line 117, sits at the same
column as the else header, so the else suite is empty and Python rejects
the whole module with IndentationError at parse time; no request is ever
dispatched to either provider.  This theorem records the syntactic fact. -/
theorem C1_mock_dispatch_line_escapes_else_suite :
    pythonSuiteIndentOK if_model_line_indent real_call_line_indent = true
    ∧ pythonSuiteIndentOK else_line_indent mock_call_line_indent = false := by
  decide

/-- Claim C3: for a valid request, when the model-backed provider raises,
the handler still answers HTTP 200 with the silent fallback WAV generated
for the same (stripped) text, and the model failure is not surfaced as an
error response. -/
theorem C3_model_failure_recovered (env : Server) (fs : FileSys)
    (data : List (String × JValue)) (raw : String) (speed : ℚ)
    (hm : env.tts_model = some ())
    (hf : env.tts_raises = true)
    (hw : env.mock_write_error = none)
    (ht : List.lookup "text" data = some (JValue.jstr raw))
    (hne : pyStrip raw ≠ "")
    (hs : pyFloat ((List.lookup "speed" data).getD (JValue.jnum 1))
            = some speed) :
    synthesize_speech env (some data) fs
      = ⟨Response.wav silent_wav,
         (mock_output_name (pyStrip raw), silent_wav) :: fs,
         [PCall.real (pyStrip raw) speed, PCall.mock (pyStrip raw)]⟩
    ∧ Response.statusCode (Response.wav silent_wav) = 200 := by
  obtain ⟨tm, tr, ta, me⟩ := env
  cases hm
  cases hf
  cases hw
  refine ⟨?_, rfl⟩
  simp [synthesize_speech, generate_real_audio, generate_mock_audio,
    FileSys.read, FileSys.write, ht, hs, hne, List.lookup]

/-- Witness for C3: a failing model, a writable temp dir, text Hi. -/
theorem C3_model_failure_recovered_witness :
    env_real_fail.tts_model = some ()
    ∧ env_real_fail.tts_raises = true
    ∧ env_real_fail.mock_write_error = none
    ∧ List.lookup "text" [("text", JValue.jstr "Hi")]
        = some (JValue.jstr "Hi")
    ∧ pyStrip "Hi" ≠ ""
    ∧ (synthesize_speech env_real_fail (some [("text", JValue.jstr "Hi")]) []
          = ⟨Response.wav silent_wav,
             [(mock_output_name "Hi", silent_wav)],
             [PCall.real "Hi" 1, PCall.mock "Hi"]⟩
        ∧ Response.statusCode (Response.wav silent_wav) = 200) :=
  ⟨rfl, rfl, rfl, by decide, by decide,
   C3_model_failure_recovered env_real_fail [] [("text", JValue.jstr "Hi")]
     "Hi" 1 rfl rfl rfl (by decide) (by decide) (by decide)⟩

/-- Claim C5: when writing the silent WAV itself fails, the exception is
re-raised by the silence provider rather than swallowed, and the handler
answers HTTP 500 whose error field is the raw underlying message — both
when no model is loaded and when the model-backed provider fell back. -/
theorem C5_fallback_failure_is_500 (env : Server) (fs : FileSys)
    (data : List (String × JValue)) (raw : String) (speed : ℚ) (msg : String)
    (hw : env.mock_write_error = some msg)
    (ht : List.lookup "text" data = some (JValue.jstr raw))
    (hne : pyStrip raw ≠ "")
    (hs : pyFloat ((List.lookup "speed" data).getD (JValue.jnum 1))
            = some speed) :
    (generate_mock_audio env (pyStrip raw) fs
        = (Except.error msg, [PCall.mock (pyStrip raw)]))
    ∧ (env.tts_model = none →
        synthesize_speech env (some data) fs
          = ⟨Response.err 500 msg, fs, [PCall.mock (pyStrip raw)]⟩)
    ∧ (env.tts_model = some () → env.tts_raises = true →
        synthesize_speech env (some data) fs
          = ⟨Response.err 500 msg, fs,
             [PCall.real (pyStrip raw) speed, PCall.mock (pyStrip raw)]⟩) := by
  obtain ⟨tm, tr, ta, me⟩ := env
  cases hw
  refine ⟨rfl, ?_, ?_⟩
  · intro hm
    cases hm
    simp [synthesize_speech, generate_mock_audio, ht, hs, hne, List.lookup]
  · intro hm hf
    cases hm
    cases hf
    simp [synthesize_speech, generate_real_audio, generate_mock_audio,
      ht, hs, hne, List.lookup]

/-- Witness for C5: unwritable temp dir, no model loaded, text Hi. -/
theorem C5_fallback_failure_is_500_witness :
    env_mock_err.mock_write_error = some "disk full"
    ∧ List.lookup "text" [("text", JValue.jstr "Hi")]
        = some (JValue.jstr "Hi")
    ∧ pyStrip "Hi" ≠ ""
    ∧ env_mock_err.tts_model = none
    ∧ synthesize_speech env_mock_err (some [("text", JValue.jstr "Hi")]) []
        = ⟨Response.err 500 "disk full", [], [PCall.mock "Hi"]⟩ :=
  ⟨rfl, by decide, by decide, rfl,
   (C5_fallback_failure_is_500 env_mock_err [] [("text", JValue.jstr "Hi")]
      "Hi" 1 "disk full" rfl (by decide) (by decide) (by decide)).2.1 rfl⟩

end Coqui

namespace Coqui

/-- Claim C7: within one provider variant, two requests with the same text
and arbitrary different speeds derive the same output filename (the name
depends only on the hash of the text), and running the second after the
first makes its output shadow the output of the first at that name. -/
theorem C7_same_text_same_filename_overwrites (env : Server) (text : String)
    (s1 s2 : ℚ) (fs : FileSys)
    (hr : env.tts_raises = false) (hw : env.mock_write_error = none) :
    (∃ fs1 fs2,
      generate_real_audio env text s1 fs
          = (Except.ok (real_output_name text, fs1), [PCall.real text s1])
      ∧ generate_real_audio env text s2 fs1
          = (Except.ok (real_output_name text, fs2), [PCall.real text s2])
      ∧ fs2.read (real_output_name text) = some (env.tts_audio text s2))
    ∧ (∃ fs1 fs2,
      generate_mock_audio env text fs
          = (Except.ok (mock_output_name text, fs1), [PCall.mock text])
      ∧ generate_mock_audio env text fs1
          = (Except.ok (mock_output_name text, fs2), [PCall.mock text])
      ∧ fs2.read (mock_output_name text) = some silent_wav) := by
  obtain ⟨tm, tr, ta, me⟩ := env
  cases hr
  cases hw
  refine ⟨⟨_, _, rfl, rfl, ?_⟩, ⟨_, _, rfl, rfl, ?_⟩⟩
  · simp [FileSys.read, FileSys.write, List.lookup]
  · simp [FileSys.read, FileSys.write, List.lookup]

/-- Witness for C7 at text Hello and speeds 1 and 2. -/
theorem C7_same_text_same_filename_overwrites_witness :
    env_real_ok.tts_raises = false
    ∧ env_real_ok.mock_write_error = none
    ∧ ((∃ fs1 fs2,
        generate_real_audio env_real_ok "Hello" 1 []
            = (Except.ok (real_output_name "Hello", fs1),
               [PCall.real "Hello" 1])
        ∧ generate_real_audio env_real_ok "Hello" 2 fs1
            = (Except.ok (real_output_name "Hello", fs2),
               [PCall.real "Hello" 2])
        ∧ fs2.read (real_output_name "Hello")
            = some (env_real_ok.tts_audio "Hello" 2))
      ∧ (∃ fs1 fs2,
        generate_mock_audio env_real_ok "Hello" []
            = (Except.ok (mock_output_name "Hello", fs1),
               [PCall.mock "Hello"])
        ∧ generate_mock_audio env_real_ok "Hello" fs1
            = (Except.ok (mock_output_name "Hello", fs2),
               [PCall.mock "Hello"])
        ∧ fs2.read (mock_output_name "Hello") = some silent_wav)) :=
  ⟨rfl, rfl,
   C7_same_text_same_filename_overwrites env_real_ok "Hello" 1 2 [] rfl rfl⟩

/-- Claim C8: a request whose text value is present but not a string, or
whose speed value does not coerce to float, is answered by the generic
exception handler with HTTP 500 carrying the exception message — not by a
400 validation error — and no provider runs and no output file is
produced. -/
theorem C8_type_confusion_is_500 (env : Server) (fs : FileSys)
    (data : List (String × JValue)) (v w : JValue) (raw : String) :
    (List.lookup "text" data = some v → (∀ s, v ≠ JValue.jstr s) →
      synthesize_speech env (some data) fs
        = ⟨Response.err 500 (strip_attr_error v), fs, []⟩)
    ∧ (List.lookup "text" data = some (JValue.jstr raw) → pyStrip raw ≠ "" →
       List.lookup "speed" data = some w → pyFloat w = none →
       synthesize_speech env (some data) fs
         = ⟨Response.err 500 (float_coerce_error w), fs, []⟩) := by
  constructor
  · intro h hv
    cases v with
    | jstr s => exact absurd rfl (hv s)
    | jnum q => simp [synthesize_speech, h]
    | jbool b => simp [synthesize_speech, h]
    | jnull => simp [synthesize_speech, h]
  · intro h1 h2 h3 h4
    simp [synthesize_speech, h1, h2, h3, h4]

/-- Witness for C8: a numeric text value, then a null speed value. -/
theorem C8_type_confusion_is_500_witness :
    List.lookup "text" [("text", JValue.jnum 5)] = some (JValue.jnum 5)
    ∧ synthesize_speech env_mock_ok (some [("text", JValue.jnum 5)]) []
        = ⟨Response.err 500 (strip_attr_error (JValue.jnum 5)), [], []⟩
    ∧ List.lookup "text" [("text", JValue.jstr "Hi"), ("speed", JValue.jnull)]
        = some (JValue.jstr "Hi")
    ∧ pyFloat JValue.jnull = none
    ∧ synthesize_speech env_mock_ok
        (some [("text", JValue.jstr "Hi"), ("speed", JValue.jnull)]) []
        = ⟨Response.err 500 (float_coerce_error JValue.jnull), [], []⟩ :=
  ⟨by decide,
   (C8_type_confusion_is_500 env_mock_ok [] [("text", JValue.jnum 5)]
      (JValue.jnum 5) JValue.jnull "").1 (by decide)
     (fun s h => JValue.noConfusion h),
   by decide, by decide,
   (C8_type_confusion_is_500 env_mock_ok []
      [("text", JValue.jstr "Hi"), ("speed", JValue.jnull)]
      JValue.jnull JValue.jnull "Hi").2 (by decide) (by decide) (by decide)
     (by decide)⟩

/-- Claim C9: the POST /api/tts handler is total — every request yields
exactly one response, which is either HTTP 200 with a WAV body, HTTP 400
with a JSON error, or HTTP 500 with a JSON error; no exception escapes. -/
theorem C9_handler_totality (env : Server) (body : ReqBody) (fs : FileSys) :
    (∃ w, (synthesize_speech env body fs).resp = Response.wav w
        ∧ Response.statusCode (Response.wav w) = 200)
    ∨ (∃ m, (synthesize_speech env body fs).resp = Response.err 400 m
        ∧ Response.statusCode (Response.err 400 m) = 400)
    ∨ (∃ m, (synthesize_speech env body fs).resp = Response.err 500 m
        ∧ Response.statusCode (Response.err 500 m) = 500) := by
  rcases body with _ | data
  · exact Or.inr (Or.inl ⟨"Missing text parameter", rfl, rfl⟩)
  rcases htv : List.lookup "text" data with _ | tv
  · refine Or.inr (Or.inl ⟨"Missing text parameter", ?_, rfl⟩)
    simp [synthesize_speech, htv]
  cases tv with
  | jnum q =>
    exact Or.inr (Or.inr ⟨strip_attr_error (JValue.jnum q),
      by simp [synthesize_speech, htv], rfl⟩)
  | jbool b =>
    exact Or.inr (Or.inr ⟨strip_attr_error (JValue.jbool b),
      by simp [synthesize_speech, htv], rfl⟩)
  | jnull =>
    exact Or.inr (Or.inr ⟨strip_attr_error JValue.jnull,
      by simp [synthesize_speech, htv], rfl⟩)
  | jstr raw =>
    by_cases hemp : pyStrip raw = ""
    · refine Or.inr (Or.inl ⟨"Empty text", ?_, rfl⟩)
      simp [synthesize_speech, htv, hemp]
    rcases hsf : pyFloat ((List.lookup "speed" data).getD (JValue.jnum 1))
      with _ | speed
    · refine Or.inr (Or.inr
        ⟨float_coerce_error ((List.lookup "speed" data).getD (JValue.jnum 1)),
         ?_, rfl⟩)
      simp [synthesize_speech, htv, hemp, hsf]
    by_cases hmdl : env.tts_model.isSome = true
    · rcases hro : generate_real_audio env (pyStrip raw) speed fs
        with ⟨r, trace⟩
      rcases r with msg | ⟨path, fs1⟩
      · refine Or.inr (Or.inr ⟨msg, ?_, rfl⟩)
        simp [synthesize_speech, htv, hemp, hsf, hmdl, hro]
      rcases hrd : fs1.read path with _ | w
      · refine Or.inr (Or.inr ⟨"Failed to generate speech", ?_, rfl⟩)
        simp [synthesize_speech, htv, hemp, hsf, hmdl, hro, hrd]
      · refine Or.inl ⟨w, ?_, rfl⟩
        simp [synthesize_speech, htv, hemp, hsf, hmdl, hro, hrd]
    · rcases hro : generate_mock_audio env (pyStrip raw) fs with ⟨r, trace⟩
      rcases r with msg | ⟨path, fs1⟩
      · refine Or.inr (Or.inr ⟨msg, ?_, rfl⟩)
        simp [synthesize_speech, htv, hemp, hsf, hmdl, hro]
      rcases hrd : fs1.read path with _ | w
      · refine Or.inr (Or.inr ⟨"Failed to generate speech", ?_, rfl⟩)
        simp [synthesize_speech, htv, hemp, hsf, hmdl, hro, hrd]
      · refine Or.inl ⟨w, ?_, rfl⟩
        simp [synthesize_speech, htv, hemp, hsf, hmdl, hro, hrd]

end Coqui

namespace Coqui

/-- Witness for C6 at the no-model environment. -/
theorem C6_health_report_witness :
    (health_check env_mock_ok).status = "healthy"
    ∧ ((health_check env_mock_ok).model_loaded = true
        ↔ env_mock_ok.tts_model.isSome = true)
    ∧ (health_check env_mock_ok).cuda_available = false
    ∧ (health_check env_mock_ok).version
        = (if env_mock_ok.tts_model.isSome then "1.0.0-real"
           else "1.0.0-mock") :=
  C6_health_report env_mock_ok

/-- Witness for C9 at a concrete bodyless request. -/
theorem C9_handler_totality_witness :
    (∃ w, (synthesize_speech env_mock_ok none []).resp = Response.wav w
        ∧ Response.statusCode (Response.wav w) = 200)
    ∨ (∃ m, (synthesize_speech env_mock_ok none []).resp = Response.err 400 m
        ∧ Response.statusCode (Response.err 400 m) = 400)
    ∨ (∃ m, (synthesize_speech env_mock_ok none []).resp
          = Response.err 500 m
        ∧ Response.statusCode (Response.err 500 m) = 500) :=
  C9_handler_totality env_mock_ok none []

/-- Witness for C10 at the text Hello. -/
theorem C10_provider_filenames_disjoint_witness :
    real_output_name "Hello" ≠ mock_output_name "Hello" :=
  C10_provider_filenames_disjoint "Hello"

end Coqui
